import Mathlib

/-!
Verification of the request-orchestration layer of the social-video-downloader
backend (`backend/main.py`): origin allowlisting, sliding-window rate limiting,
the multi-attempt extraction strategy, filename sanitisation, and temp-file
cleanup. Python strings are modelled as Lean `String`s; the character-level
operations (`lower`, `strip`, slicing, substring tests) are mirrored on
`List Char`. `time.monotonic()` values are modelled as rationals.
-/

namespace SVD

/-! ### String helpers mirroring the Python string operations -/

/-- Python `str.split(sep)[0]`: the prefix of the character list before the
first occurrence of `sep`. -/
def beforeChar (sep : Char) (l : List Char) : List Char :=
  l.takeWhile (fun c => !(c == sep))

/-- Python whitespace for `str.strip()` / regex `\s` (ASCII range). -/
def pyIsSpace (c : Char) : Bool :=
  c == ' ' || c == '\t' || c == '\n' || c == '\r' || c == '\x0b' || c == '\x0c'

/-- Python `str.strip()`: drop leading and trailing whitespace. -/
def pyStripList (l : List Char) : List Char :=
  ((l.dropWhile pyIsSpace).reverse.dropWhile pyIsSpace).reverse

/-- Python `str.strip()` on a `String`. -/
def pyStrip (s : String) : String :=
  String.mk (pyStripList s.toList)

/-- Python `str.lower()` (ASCII case folding, as used on host names and
error messages in the source). -/
def pyLower (l : List Char) : List Char :=
  l.map Char.toLower

/-- Python `needle in hay` substring test. -/
def containsSub (needle : List Char) : List Char → Bool
  | [] => needle.isEmpty
  | c :: t => needle.isPrefixOf (c :: t) || containsSub needle t

/-- Python `str.split("\n")[0]`: first line of a string. -/
def firstLine (s : String) : String :=
  String.mk (beforeChar '\n' s.toList)

/-! ### Origin Validator (`is_allowed_url`, `backend/main.py:150-163`)

`urlparse` is Python standard library, external to the repository; the
validator's own logic starts from the parsed `scheme` and `netloc`
components, so the embedding takes a `ParsedUrl` record. -/

/-- The result of `urlparse` that `is_allowed_url` inspects. -/
structure ParsedUrl where
  scheme : String
  netloc : String
deriving DecidableEq

/-- `ALLOWED_ORIGINS` from `backend/main.py:30-43`. -/
def ALLOWED_ORIGINS : List String :=
  [ "https://twitter.com",
    "https://x.com",
    "https://www.twitter.com",
    "https://www.x.com",
    "https://instagram.com",
    "https://www.instagram.com",
    "https://tiktok.com",
    "https://www.tiktok.com",
    "https://vm.tiktok.com",
    "https://youtube.com",
    "https://www.youtube.com",
    "https://youtu.be" ]

/-- `ALLOWED_NETLOCS` (`backend/main.py:45-53`): the netloc of each allowed
origin (every origin is `https://<host>`, so `urlparse(origin).netloc` drops
the 8-character scheme prefix), plus the mobile variants. -/
def ALLOWED_NETLOCS : List (List Char) :=
  ALLOWED_ORIGINS.map (fun s => s.toList.drop 8) ++
    (["mobile.twitter.com", "m.twitter.com", "m.instagram.com",
      "m.youtube.com", "music.youtube.com"].map String.toList)

/-- The host computed by `is_allowed_url`: lowercase the netloc, and if it
contains a `:` keep only the part before the first `:` (port stripping). -/
def hostOf (netloc : String) : List Char :=
  let lower := pyLower netloc.toList
  if lower.contains ':' then beforeChar ':' lower else lower

/-- `is_allowed_url` (`backend/main.py:150-163`): accept iff the scheme is
`http`/`https` and the lowercased, port-stripped netloc is in
`ALLOWED_NETLOCS` or ends with `"." + n` for some allowed netloc `n`. -/
def is_allowed_url (p : ParsedUrl) : Bool :=
  if !(p.scheme == "http" || p.scheme == "https") then false
  else
    ALLOWED_NETLOCS.contains (hostOf p.netloc) ||
      ALLOWED_NETLOCS.any (fun n => List.isSuffixOf ('.' :: n) (hostOf p.netloc))

/-- The whole body of `is_allowed_url` runs inside `try/except Exception:
return False`; a `urlparse` failure is modelled as the `.error` case. -/
def is_allowed_url_full (r : Except String ParsedUrl) : Bool :=
  match r with
  | .error _ => false
  | .ok p => is_allowed_url p

/-! ### Admission Limiter (`_check_rate_limit`, `backend/main.py:121-133`) -/

/-- `RATE_LIMIT_REQUESTS` (`backend/main.py:56`). -/
def RATE_LIMIT_REQUESTS : ℕ := 10

/-- `RATE_LIMIT_WINDOW` in seconds (`backend/main.py:57`). -/
def RATE_LIMIT_WINDOW : ℚ := 60

/-- `times[:] = [t for t in times if now - t < RATE_LIMIT_WINDOW]`
(`backend/main.py:127`). -/
def prune (now : ℚ) (times : List ℚ) : List ℚ :=
  times.filter (fun t => now - t < RATE_LIMIT_WINDOW)

/-- `_check_rate_limit` for one key's window: prune, then reject (leaving the
pruned list) when the remaining count is at or above the ceiling, else append
`now` and accept. The `Bool` is `true` on acceptance; raising `HTTPException
429` in the source is the `false` case. -/
def check_rate_limit (now : ℚ) (times : List ℚ) : Bool × List ℚ :=
  let pruned := prune now times
  if RATE_LIMIT_REQUESTS ≤ pruned.length then (false, pruned)
  else (true, pruned ++ [now])

/-- Number of recorded timestamps within the trailing window ending at `now`
(the count the pruning predicate retains). -/
def countWithin (now : ℚ) (times : List ℚ) : ℕ :=
  (prune now times).length

/-- The per-key window states reachable from the initial empty list
(`_rate_limit[ip] = []`, `backend/main.py:124`) by calls to
`_check_rate_limit`. -/
inductive ReachableWindow : List ℚ → Prop where
  | init : ReachableWindow []
  | step (now : ℚ) (times : List ℚ) :
      ReachableWindow times → ReachableWindow (check_rate_limit now times).2

/-! ### Admission prefix of the `download` handler (`backend/main.py:166-174`)

The handler body starts with `_check_rate_limit(_get_client_ip(request))` and
only afterwards evaluates `is_allowed_url(url)`; both rejections surface as
raised `HTTPException`s (429 and 400 respectively). -/

inductive AdmissionResult where
  | rateLimited
  | badOrigin
  | admitted
deriving DecidableEq

/-- The admission prefix of `download`: the rate limiter runs (and mutates the
key's window) first; origin validation runs only for admitted requests. The
returned list is the per-key window state after the prefix. -/
def admission (now : ℚ) (st : List ℚ) (p : ParsedUrl) :
    AdmissionResult × List ℚ :=
  let r := check_rate_limit now st
  if !r.1 then (.rateLimited, r.2)
  else if !(is_allowed_url p) then (.badOrigin, r.2)
  else (.admitted, r.2)

/-! ### Strategy Selector (`_ydl_opts_base`, `_is_youtube`, attempt list,
`backend/main.py:72-105` and `176-184`) -/

/-- The environment-dependent inputs read by the option builder:
`os.environ.get("YT_DLP_POT_PROVIDER_URL", "")`, the `_COOKIES_FILE` path and
whether `os.path.isfile` holds for it. -/
structure Env where
  potProviderUrl : String
  cookiesFilePath : String
  cookiesFileIsFile : Bool
deriving DecidableEq

/-- `_HTTP_HEADERS` (`backend/main.py:66-70`). -/
def HTTP_HEADERS : List (String × String) :=
  [ ("User-Agent",
     "Mozilla/5.0 (Windows NT 10.0; Win64; x64) AppleWebKit/537.36 (KHTML, like Gecko) Chrome/131.0.0.0 Safari/537.36"),
    ("Accept", "text/html,application/xhtml+xml,application/xml;q=0.9,*/*;q=0.8"),
    ("Accept-Language", "en-us,en;q=0.9") ]

/-- `YT_DLP_TIMEOUT` (`backend/main.py:55`). -/
def YT_DLP_TIMEOUT : ℕ := 60

/-- One yt-dlp option set (`AttemptSpec`): the fields `_ydl_opts_base` can
set. `extractor_args` holds the `youtubepot-bgutilhttp base_url` value when
present. -/
structure YdlOpts where
  quiet : Bool
  no_warnings : Bool
  extract_flat : Bool
  socket_timeout : ℕ
  http_headers : Option (List (String × String))
  extractor_args : Option String
  cookiefile : Option String
deriving DecidableEq

/-- `_ydl_opts_base` (`backend/main.py:72-99`): custom headers only for
non-YouTube; the POT provider only when `use_pot` and the stripped environment
value is non-empty; the cookie file whenever it exists on disk. -/
def ydl_opts_base (env : Env) (is_youtube use_pot : Bool) : YdlOpts :=
  { quiet := true
    no_warnings := true
    extract_flat := false
    socket_timeout := YT_DLP_TIMEOUT
    http_headers := if is_youtube then none else some HTTP_HEADERS
    extractor_args :=
      if use_pot && !(pyStrip env.potProviderUrl == "") then
        some (pyStrip env.potProviderUrl)
      else none
    cookiefile :=
      if env.cookiesFileIsFile then some env.cookiesFilePath else none }

/-- `_is_youtube` (`backend/main.py:102-105`): lowercase the netloc and take
the part before `":"`. -/
def is_youtube (p : ParsedUrl) : Bool :=
  let netloc := beforeChar ':' (pyLower p.netloc.toList)
  (["youtube.com", "www.youtube.com", "youtu.be", "m.youtube.com",
    "music.youtube.com"].map String.toList).contains netloc

/-- `bool(os.environ.get("YT_DLP_POT_PROVIDER_URL", "").strip())`
(`backend/main.py:177`). -/
def has_pot (env : Env) : Bool :=
  !(pyStrip env.potProviderUrl == "")

/-- The attempt list built by `download` (`backend/main.py:179-184`): always
the vanilla spec first; a second, POT-enabled spec only for YouTube with a
configured provider. -/
def buildAttempts (env : Env) (p : ParsedUrl) : List YdlOpts :=
  let is_yt := is_youtube p
  let attempts := [ydl_opts_base env is_yt false]
  if is_yt && has_pot env then
    attempts ++ [ydl_opts_base env true true]
  else attempts

/-! ### Extraction Orchestrator (`backend/main.py:108-114` and `186-212`)

The external engine (`ydl.extract_info(url, download=False)`) is modelled by
the outcome each attempt would observe: a truthy metadata dict, a falsy
result, a `yt_dlp.utils.DownloadError`, or any other exception. -/

/-- `BLOCK_KEYWORDS` used by `_looks_like_bot_block` (`backend/main.py:113`). -/
def BLOCK_KEYWORDS : List String :=
  ["bot", "login", "sign in", "cookies", "rate-limit", "rate limit",
   "not available"]

/-- `_looks_like_bot_block` (`backend/main.py:108-114`): case-insensitive
substring match of the message against the keyword set. -/
def looks_like_bot_block (msg : String) : Bool :=
  BLOCK_KEYWORDS.any (fun kw => containsSub kw.toList (pyLower msg.toList))

/-- `str(e).split("\n")[0] if str(e) else "Failed to extract video."`
(`backend/main.py:200`). -/
def errLine (s : String) : String :=
  if s == "" then "Failed to extract video." else firstLine s

/-- What one engine call observes: `extract_info` returned a truthy metadata
dict, returned a falsy value, raised `DownloadError`, or raised some other
exception. -/
inductive EngineResult where
  | ok (title : Option String)
  | empty
  | dlError (msg : String)
  | crash (msg : String)
deriving DecidableEq

/-- The terminal outcome of the metadata phase: success with the winning
option set, `HTTPException(422, detail)`, or `HTTPException(500, detail)`. -/
inductive ExtractOutcome where
  | success (title : Option String) (winning : YdlOpts)
  | fail422 (detail : String)
  | fail500 (detail : String)
deriving DecidableEq

/-- The attempt loop of `download` (`backend/main.py:191-212`), run over the
attempt list zipped with the engine result each attempt would observe;
`lastErr` threads the `last_error` variable (initially `""`). The second
component is the total backoff in seconds (`await asyncio.sleep(2)` before
each retry). A falsy engine result falls through to the next attempt; on
exhaustion the post-loop check raises 422 with `last_error or "No video
found."`. -/
def extractLoop : List (YdlOpts × EngineResult) → String → ExtractOutcome × ℕ
  | [], lastErr =>
      (.fail422 (if lastErr == "" then "No video found." else lastErr), 0)
  | (opts, res) :: rest, lastErr =>
      match res with
      | .ok title => (.success title opts, 0)
      | .empty => extractLoop rest lastErr
      | .dlError msg =>
          let le := errLine msg
          if looks_like_bot_block le && !rest.isEmpty then
            let r := extractLoop rest le
            (r.1, r.2 + 2)
          else (.fail422 le, 0)
      | .crash msg => (.fail500 ("Extraction failed: " ++ msg), 0)

/-! ### Artifact Lifecycle (`backend/main.py:214-250`) -/

/-- Regex `\w` of `r"[^\w\s\-.]"` (ASCII range: letters, digits,
underscore). -/
def isWordChar (c : Char) : Bool :=
  c.isAlphanum || c == '_'

/-- The character class kept by `re.sub(r"[^\w\s\-.]", "", title)`. -/
def keepChar (c : Char) : Bool :=
  isWordChar c || pyIsSpace c || c == '-' || c == '.'

/-- `re.sub(r"[^\w\s\-.]", "", title)[:80].strip() or "video"`
(`backend/main.py:216`). -/
def safe_title (title : String) : String :=
  let cleaned := pyStripList ((title.toList.filter keepChar).take 80)
  if cleaned.isEmpty then "video" else String.mk cleaned

/-- `title = info.get("title") or "video"` followed by the sanitisation and
`f"{safe_title}.mp4"` (`backend/main.py:215-217`). -/
def derive_filename (title : Option String) : String :=
  let t := match title with
    | none => "video"
    | some s => if s == "" then "video" else s
  safe_title t ++ ".mp4"

/-- The filename pipeline as the spec words it (section 4.5): strip all
characters other than word characters, whitespace, hyphen and dot; truncate
to 80; trim surrounding whitespace; fall back to the literal default name
when empty; append the fixed media extension. -/
def spec_filename (title : String) : String :=
  let kept := title.toList.filter
    (fun c => isWordChar c || pyIsSpace c || c == '-' || c == '.')
  let truncated := kept.take 80
  let trimmed := pyStripList truncated
  (if trimmed.isEmpty then "video" else String.mk trimmed) ++ ".mp4"

/-- `str(Path(tempfile.gettempdir()) / "svd_%(id)s.%(ext)s")`
(`backend/main.py:219`), with the temp directory as a parameter. -/
def outTmpl (tmpdir : String) : String :=
  tmpdir ++ "/svd_%(id)s.%(ext)s"

/-- The option dict passed to the download-phase `YoutubeDL`
(`backend/main.py:220-224`): the winning option set (or, defensively, a fresh
vanilla one via the `or` fallback) extended with the keys `outtmpl` and
`format` — neither key occurs in a base option set. -/
structure DlOpts where
  base : YdlOpts
  outtmpl : String
  format : String
deriving DecidableEq

/-- `dl_opts = {**(winning_opts or _ydl_opts_base(is_youtube=is_yt)),
"outtmpl": out_tmpl, "format": "best[ext=mp4]/best"}`. -/
def mkDlOpts (winning : Option YdlOpts) (env : Env) (is_yt : Bool)
    (tmpdir : String) : DlOpts :=
  { base := winning.getD (ydl_opts_base env is_yt false)
    outtmpl := outTmpl tmpdir
    format := "best[ext=mp4]/best" }

/-- A filesystem action scheduled by the handler; `bg.add_task(os.unlink,
path)` schedules exactly one of these. -/
inductive FsAction where
  | unlink (path : String)
deriving DecidableEq

/-- What the download-phase engine call observes: a truthy result dict whose
prepared filename may or may not exist on disk, a falsy result,
a `DownloadError`, or any other exception. -/
inductive DlEngineResult where
  | ok (path : String) (existsOnDisk : Bool)
  | falsy
  | dlError (msg : String)
  | crash (msg : String)
deriving DecidableEq

/-- The handler's response for the download phase. -/
inductive DlResponse where
  | fileResp (path filename : String)
  | fail422 (detail : String)
  | fail500 (detail : String)
deriving DecidableEq

/-- `str(e).split("\n")[0] if str(e) else "Download failed."`
(`backend/main.py:243`). -/
def dlErrLine (s : String) : String :=
  if s == "" then "Download failed." else firstLine s

/-- Phase 2 of `download` (`backend/main.py:226-250`): on a truthy result
with an existing file, schedule exactly one `os.unlink` background task and
return the `FileResponse`; every other path raises an `HTTPException` and
schedules nothing. -/
def downloadPhase (res : DlEngineResult) (filename : String) :
    DlResponse × List FsAction :=
  match res with
  | .ok path existsOnDisk =>
      if existsOnDisk then (.fileResp path filename, [.unlink path])
      else (.fail500 "File not found after download.", [])
  | .falsy => (.fail422 "Download failed.", [])
  | .dlError msg => (.fail422 (dlErrLine msg), [])
  | .crash msg => (.fail500 ("Download failed: " ++ msg), [])

/-- Modelled from the spec: the transport layer (FastAPI/Starlette
`BackgroundTasks` semantics, not part of `src/`) runs every scheduled
background task exactly once after the response body has been handed to the
transport, whether transmission succeeded or the connection was aborted; the
`aborted` flag therefore does not influence task execution. The filesystem is
the list of existing paths; `os.unlink` removes a path. -/
def runTransport (aborted : Bool) (fs : List String)
    (tasks : List FsAction) : List String :=
  match aborted with
  | _ => tasks.foldl
      (fun acc a => match a with | .unlink p => acc.filter (fun q => !(q == p)))
      fs

/-! ## Helper lemmas -/

/-- The empty host matches no allowlist entry, exactly or as a suffix. -/
theorem empty_host_no_match :
    ¬ (([] : List Char) ∈ ALLOWED_NETLOCS ∨
       ∃ n ∈ ALLOWED_NETLOCS, List.isSuffixOf ('.' :: n) ([] : List Char) = true) := by
  decide

/-- The host extracted from an empty netloc is empty. -/
theorem hostOf_empty : hostOf "" = [] := rfl

/-- Characterisation of `is_allowed_url` over parsed URLs. -/
theorem is_allowed_url_iff (p : ParsedUrl) :
    is_allowed_url p = true ↔
      ((p.scheme = "http" ∨ p.scheme = "https") ∧ p.netloc ≠ "" ∧
        (hostOf p.netloc ∈ ALLOWED_NETLOCS ∨
          ∃ n ∈ ALLOWED_NETLOCS,
            List.isSuffixOf ('.' :: n) (hostOf p.netloc) = true)) := by
  unfold is_allowed_url
  by_cases hs : p.scheme = "http" ∨ p.scheme = "https"
  · have hb : (p.scheme == "http" || p.scheme == "https") = true := by
      rcases hs with h | h <;> simp [h]
    rw [hb]
    simp only [Bool.not_true, Bool.false_eq_true, if_false, Bool.or_eq_true,
      List.any_eq_true, List.contains, List.elem_iff]
    constructor
    · intro h
      refine ⟨hs, ?_, ?_⟩
      · intro hempty
        rw [hempty, hostOf_empty] at h
        exact empty_host_no_match (by simpa using h)
      · simpa using h
    · rintro ⟨-, -, h⟩
      simpa using h
  · have hb : (p.scheme == "http" || p.scheme == "https") = false := by
      push_neg at hs
      simp [hs.1, hs.2]
    rw [hb]
    simp only [Bool.not_false, if_true]
    constructor
    · intro h; exact absurd h (by simp)
    · rintro ⟨h, -, -⟩; exact absurd h hs

/-- A rejection leaves the pruned window. -/
theorem check_rate_limit_reject {now : ℚ} {times : List ℚ}
    (h : RATE_LIMIT_REQUESTS ≤ (prune now times).length) :
    check_rate_limit now times = (false, prune now times) := by
  simp [check_rate_limit, h]

/-- An acceptance appends the current timestamp to the pruned window. -/
theorem check_rate_limit_accept {now : ℚ} {times : List ℚ}
    (h : (prune now times).length < RATE_LIMIT_REQUESTS) :
    check_rate_limit now times = (true, prune now times ++ [now]) := by
  simp [check_rate_limit, Nat.not_le.mpr h]

/-- Every reachable per-key window holds at most the ceiling of timestamps. -/
theorem reachable_length_le {st : List ℚ} (h : ReachableWindow st) :
    st.length ≤ RATE_LIMIT_REQUESTS := by
  induction h with
  | init => simp
  | step now times _ ih =>
    by_cases hc : RATE_LIMIT_REQUESTS ≤ (prune now times).length
    · rw [check_rate_limit_reject hc]
      exact le_trans (List.length_filter_le _ _) ih
    · rw [check_rate_limit_accept (Nat.not_le.mp hc)]
      have := Nat.not_le.mp hc
      simp only [List.length_append, List.length_cons, List.length_nil]
      omega

/-- A successful metadata phase returns an option set that is paired with a
truthy engine result in the attempt list. -/
theorem extract_success_mem :
    ∀ (l : List (YdlOpts × EngineResult)) (le : String) (title : Option String)
      (w : YdlOpts) (n : ℕ),
      extractLoop l le = (.success title w, n) →
      (w, EngineResult.ok title) ∈ l := by
  intro l
  induction l with
  | nil =>
    intro le title w n h
    simp [extractLoop] at h
  | cons hd tl ih =>
    intro le title w n h
    obtain ⟨o, res⟩ := hd
    cases res with
    | ok t =>
      simp only [extractLoop, Prod.mk.injEq, ExtractOutcome.success.injEq] at h
      obtain ⟨⟨ht, hw⟩, -⟩ := h
      subst ht; subst hw
      exact List.mem_cons_self _ _
    | empty =>
      simp only [extractLoop] at h
      exact List.mem_cons_of_mem _ (ih le title w n h)
    | dlError msg =>
      simp only [extractLoop] at h
      by_cases hc : (looks_like_bot_block (errLine msg) && !tl.isEmpty) = true
      · rw [if_pos hc] at h
        have h1 : (extractLoop tl (errLine msg)).1 =
            ExtractOutcome.success title w := congrArg Prod.fst h
        exact List.mem_cons_of_mem _
          (ih (errLine msg) title w (extractLoop tl (errLine msg)).2
            (by rw [← h1]))
      · rw [if_neg hc] at h
        simp at h
    | crash msg =>
      simp [extractLoop] at h

/-! ## Claim theorems -/

/-- Claim C1: for every key, `_check_rate_limit` first prunes entries older
than the 60-second window; a rejection leaves exactly the pruned state (the
request is not recorded) and happens iff the pruned count is at or above the
ceiling of 10; an acceptance appends the current timestamp; for every
reachable window state, at most 10 recorded timestamps lie within any
trailing 60-second window; and once every recorded timestamp is at least a
window old, admission resumes. -/
theorem C1_rate_limiter (now : ℚ) (st : List ℚ) (h : ReachableWindow st) :
    ((check_rate_limit now st).1 = false ↔
        RATE_LIMIT_REQUESTS ≤ (prune now st).length) ∧
    ((check_rate_limit now st).1 = false →
        (check_rate_limit now st).2 = prune now st) ∧
    ((check_rate_limit now st).1 = true →
        (check_rate_limit now st).2 = prune now st ++ [now]) ∧
    (∀ t : ℚ, countWithin t (check_rate_limit now st).2 ≤ RATE_LIMIT_REQUESTS) ∧
    ((∀ t ∈ st, RATE_LIMIT_WINDOW ≤ now - t) →
        (check_rate_limit now st).1 = true) := by
  have hlen : ∀ t : ℚ,
      countWithin t (check_rate_limit now st).2 ≤ RATE_LIMIT_REQUESTS :=
    fun _ => le_trans (List.length_filter_le _ _)
      (reachable_length_le (ReachableWindow.step now st h))
  have hresume : (∀ t ∈ st, RATE_LIMIT_WINDOW ≤ now - t) →
      (check_rate_limit now st).1 = true := by
    intro hall
    have hp : prune now st = [] := by
      rw [prune, List.filter_eq_nil_iff]
      intro a ha
      simp only [decide_eq_true_eq, not_lt]
      exact hall a ha
    have hlt : (prune now st).length < RATE_LIMIT_REQUESTS := by
      rw [hp]; simp [RATE_LIMIT_REQUESTS]
    rw [check_rate_limit_accept hlt]
  by_cases hc : RATE_LIMIT_REQUESTS ≤ (prune now st).length
  · have he := check_rate_limit_reject hc
    refine ⟨?_, ?_, ?_, hlen, hresume⟩
    · rw [he]; exact ⟨fun _ => hc, fun _ => rfl⟩
    · intro _; rw [he]
    · intro habs; rw [he] at habs; exact absurd habs (by simp)
  · have he := check_rate_limit_accept (Nat.not_le.mp hc)
    refine ⟨?_, ?_, ?_, hlen, hresume⟩
    · rw [he]; exact iff_of_false (by simp) hc
    · intro habs; rw [he] at habs; exact absurd habs (by simp)
    · intro _; rw [he]

/-- Witness for C1: the first request from a fresh key is accepted and its
timestamp recorded. -/
theorem C1_rate_limiter_witness :
    (check_rate_limit 0 []).1 = true ∧ (check_rate_limit 0 []).2 = [0] := by
  have h := C1_rate_limiter 0 [] ReachableWindow.init
  have h1 : (check_rate_limit 0 []).1 = true := h.2.2.2.2 (by simp)
  refine ⟨h1, ?_⟩
  rw [h.2.2.1 h1]
  rfl

/-- Claim C2: a failing attempt is retried (with a 2-second backoff added)
exactly when the error is classified as a bot/login/rate-limit/availability
block and a later attempt exists; a non-block `DownloadError` terminates
immediately with 422 carrying the error's first line; a `DownloadError` on
the last attempt terminates with 422 even when block-classified; any other
exception terminates immediately with 500. -/
theorem C2_retry_policy (o : YdlOpts) (rest : List (YdlOpts × EngineResult))
    (lastErr msg : String) :
    (looks_like_bot_block (errLine msg) = true → rest ≠ [] →
        extractLoop ((o, .dlError msg) :: rest) lastErr =
          ((extractLoop rest (errLine msg)).1,
            (extractLoop rest (errLine msg)).2 + 2)) ∧
    (looks_like_bot_block (errLine msg) = false →
        extractLoop ((o, .dlError msg) :: rest) lastErr =
          (.fail422 (errLine msg), 0)) ∧
    (extractLoop [(o, .dlError msg)] lastErr = (.fail422 (errLine msg), 0)) ∧
    (extractLoop ((o, .crash msg) :: rest) lastErr =
      (.fail500 ("Extraction failed: " ++ msg), 0)) := by
  refine ⟨?_, ?_, ?_, rfl⟩
  · intro hb hr
    have hne : rest.isEmpty = false := by
      cases rest with
      | nil => exact absurd rfl hr
      | cons a t => rfl
    simp [extractLoop, hb, hne]
  · intro hb
    simp [extractLoop, hb]
  · simp [extractLoop]

/-- Witness for C2: a block-classified first failure followed by a successful
second attempt retries once, waiting 2 seconds. -/
theorem C2_retry_policy_witness :
    extractLoop
        [(ydl_opts_base ⟨"", "cookies.txt", false⟩ true false,
          .dlError "bot check failed"),
         (ydl_opts_base ⟨"", "cookies.txt", false⟩ false false,
          .ok (some "t"))] "" =
      (.success (some "t") (ydl_opts_base ⟨"", "cookies.txt", false⟩ false false),
        2) := by
  have h := (C2_retry_policy (ydl_opts_base ⟨"", "cookies.txt", false⟩ true false)
      [(ydl_opts_base ⟨"", "cookies.txt", false⟩ false false,
        EngineResult.ok (some "t"))]
      "" "bot check failed").1 (by decide) (by simp)
  rw [h]
  rfl

/-- Claim C3: the option set used by the download phase is exactly the
AttemptSpec that won metadata extraction (which is one of the attempts, paired
with its truthy engine result), extended only with the output template and
the format selection. -/
theorem C3_winning_spec (l : List (YdlOpts × EngineResult)) (le : String)
    (title : Option String) (w : YdlOpts) (n : ℕ) (env : Env) (is_yt : Bool)
    (tmpdir : String)
    (h : extractLoop l le = (.success title w, n)) :
    (w, EngineResult.ok title) ∈ l ∧
    mkDlOpts (some w) env is_yt tmpdir =
      ⟨w, outTmpl tmpdir, "best[ext=mp4]/best"⟩ :=
  ⟨extract_success_mem l le title w n h, rfl⟩

/-- Witness for C3: attempt 1 fails with a classified block, attempt 2 (the
POT-enabled spec) succeeds, and exactly that spec becomes the base of the
download options. -/
theorem C3_winning_spec_witness :
    (ydl_opts_base ⟨"https://pot.example", "cookies.txt", false⟩ true true,
        EngineResult.ok (some "vid")) ∈
      [(ydl_opts_base ⟨"https://pot.example", "cookies.txt", false⟩ true false,
          EngineResult.dlError "Sign in required"),
        (ydl_opts_base ⟨"https://pot.example", "cookies.txt", false⟩ true true,
          EngineResult.ok (some "vid"))] ∧
    mkDlOpts
        (some (ydl_opts_base ⟨"https://pot.example", "cookies.txt", false⟩ true true))
        ⟨"https://pot.example", "cookies.txt", false⟩ true "/tmp" =
      ⟨ydl_opts_base ⟨"https://pot.example", "cookies.txt", false⟩ true true,
        outTmpl "/tmp", "best[ext=mp4]/best"⟩ :=
  C3_winning_spec _ "" (some "vid") _ 2 _ true "/tmp" (by decide)

/-- Claim C4: `is_allowed_url` accepts exactly the http/https URLs with a
non-empty netloc whose port-stripped, lowercased host is an allowlist entry
or a proper `"." + entry` suffix of one; in particular mobile variants and
subdomains are accepted while `evil.com` and `notyoutube.com` are
rejected. -/
theorem C4_allowlist :
    (∀ p : ParsedUrl, is_allowed_url p = true ↔
      ((p.scheme = "http" ∨ p.scheme = "https") ∧ p.netloc ≠ "" ∧
        (hostOf p.netloc ∈ ALLOWED_NETLOCS ∨
          ∃ n ∈ ALLOWED_NETLOCS,
            List.isSuffixOf ('.' :: n) (hostOf p.netloc) = true))) ∧
    is_allowed_url ⟨"https", "m.youtube.com"⟩ = true ∧
    is_allowed_url ⟨"https", "foo.instagram.com"⟩ = true ∧
    is_allowed_url ⟨"https", "evil.com"⟩ = false ∧
    is_allowed_url ⟨"https", "notyoutube.com"⟩ = false :=
  ⟨is_allowed_url_iff, by decide, by decide, by decide, by decide⟩

/-- Claim C5: when the download phase reports success with an existing file,
the handler returns the file response and schedules exactly one deletion of
the temporary file; after the transport layer runs the scheduled tasks —
whether or not the connection was aborted — the file no longer exists. -/
theorem C5_cleanup (path filename : String) (fs : List String) :
    (downloadPhase (.ok path true) filename).1 = .fileResp path filename ∧
    (downloadPhase (.ok path true) filename).2 = [.unlink path] ∧
    ((downloadPhase (.ok path true) filename).2.count (FsAction.unlink path)
        = 1) ∧
    (∀ aborted : Bool,
      path ∉ runTransport aborted fs (downloadPhase (.ok path true) filename).2) := by
  refine ⟨rfl, rfl, by simp [downloadPhase], ?_⟩
  intro aborted
  simp [downloadPhase, runTransport, List.mem_filter]

/-- Claim C6 counterexample: a request whose URL fails origin validation
(from a fresh key) still mutates the per-key window — its timestamp is
recorded — so origin validation does not precede the admission limiter. -/
theorem C6_counterexample :
    (admission 0 [] ⟨"https", "evil.com"⟩).1 = AdmissionResult.badOrigin ∧
    (admission 0 [] ⟨"https", "evil.com"⟩).2 ≠ [] := by
  refine ⟨by decide, by decide⟩

/-- Claim C6 (amended): the admission limiter is consulted before origin
validation; a rate-limited request gets 429 without origin validation being
able to change the outcome, and a request failing origin validation gets 400
but its timestamp is recorded against the client's rate budget. -/
theorem C6_amended (now : ℚ) (st : List ℚ) (p : ParsedUrl) :
    (RATE_LIMIT_REQUESTS ≤ (prune now st).length →
        admission now st p = (.rateLimited, prune now st)) ∧
    ((prune now st).length < RATE_LIMIT_REQUESTS → is_allowed_url p = false →
        admission now st p = (.badOrigin, prune now st ++ [now])) ∧
    ((prune now st).length < RATE_LIMIT_REQUESTS → is_allowed_url p = true →
        admission now st p = (.admitted, prune now st ++ [now])) := by
  refine ⟨?_, ?_, ?_⟩
  · intro hc; simp [admission, check_rate_limit_reject hc]
  · intro hc hu; simp [admission, check_rate_limit_accept hc, hu]
  · intro hc hu; simp [admission, check_rate_limit_accept hc, hu]

/-- Witness for the amended C6: a disallowed URL from a fresh key yields the
400 outcome with the request recorded. -/
theorem C6_amended_witness :
    admission 0 [] ⟨"https", "evil.com"⟩ = (AdmissionResult.badOrigin, [0]) := by
  have h := (C6_amended 0 [] ⟨"https", "evil.com"⟩).2.1 (by decide) (by decide)
  simpa [prune] using h

/-- Claim C7: the derived filename removes every character outside word
characters, whitespace, hyphen and dot, truncates to 80, trims surrounding
whitespace, falls back to "video" when empty, and appends ".mp4" — exactly
the pipeline the spec describes — and the title "My / Video: Test!!" yields
"My  Video Test.mp4". -/
theorem C7_filename :
    (∀ t : String, safe_title t ++ ".mp4" = spec_filename t) ∧
    derive_filename (some "My / Video: Test!!") = "My  Video Test.mp4" :=
  ⟨fun _ => rfl, by decide⟩

/-- Claim C8 counterexample: a bot/login-block failure on YouTube (a
heavily automated-traffic-restricted platform) that terminates the attempt
sequence surfaces the engine's raw first-line error text as the 422 detail —
no generic substitute message exists in this code. -/
theorem C8_counterexample :
    looks_like_bot_block "Sign in to confirm you are not a bot" = true ∧
    is_youtube ⟨"https", "www.youtube.com"⟩ = true ∧
    extractLoop
        [(ydl_opts_base ⟨"", "cookies.txt", false⟩ true false,
          .dlError "Sign in to confirm you are not a bot")] "" =
      (.fail422 "Sign in to confirm you are not a bot", 0) :=
  ⟨by decide, by decide, by decide⟩

/-- Claim C8 (amended): every terminal `DownloadError`, block-classified or
not and on every platform, surfaces the raw first line of the engine's error
message as the 422 detail. -/
theorem C8_amended (o : YdlOpts) (rest : List (YdlOpts × EngineResult))
    (lastErr msg : String)
    (h : ¬(looks_like_bot_block (errLine msg) = true ∧ rest ≠ [])) :
    extractLoop ((o, .dlError msg) :: rest) lastErr =
      (.fail422 (errLine msg), 0) := by
  have hc : (looks_like_bot_block (errLine msg) && !rest.isEmpty) = false := by
    cases hb : looks_like_bot_block (errLine msg) with
    | false => simp
    | true =>
      cases rest with
      | nil => simp
      | cons a t => exact absurd ⟨hb, by simp⟩ h
  simp [extractLoop, hc]

/-- Witness for the amended C8: a non-block terminal failure surfaces the
engine's message verbatim. -/
theorem C8_amended_witness :
    extractLoop
        [(ydl_opts_base ⟨"", "cookies.txt", false⟩ false false,
          .dlError "Unsupported URL: example")] "" =
      (.fail422 "Unsupported URL: example", 0) :=
  C8_amended _ [] "" "Unsupported URL: example" (by simp)

/-- Claim C9: the validator, including its `except`-path wrapper, is a total
boolean function of the parse outcome: every failed parse yields `false` and
every successful parse is decided by the pure allowlist check; being a pure
total function, it raises nothing and performs no I/O. -/
theorem C9_validator_total :
    (∀ e : String, is_allowed_url_full (.error e) = false) ∧
    (∀ p : ParsedUrl, is_allowed_url_full (.ok p) = is_allowed_url p) ∧
    (∀ r : Except String ParsedUrl,
      is_allowed_url_full r = true ∨ is_allowed_url_full r = false) :=
  ⟨fun _ => rfl, fun _ => rfl,
    fun r => by cases h : is_allowed_url_full r <;> simp⟩

/-- Claim C10: the attempt list is never empty and has at most two entries:
exactly the vanilla spec unless the URL is a YouTube host with a non-empty
POT provider configured, in which case it is the vanilla spec followed by the
POT-enabled spec. -/
theorem C10_attempts (env : Env) (p : ParsedUrl) :
    buildAttempts env p ≠ [] ∧
    (buildAttempts env p).length ≤ 2 ∧
    (¬(is_youtube p = true ∧ has_pot env = true) →
        buildAttempts env p = [ydl_opts_base env (is_youtube p) false]) ∧
    (is_youtube p = true → has_pot env = true →
        buildAttempts env p =
          [ydl_opts_base env true false, ydl_opts_base env true true]) := by
  by_cases hy : is_youtube p = true <;> by_cases hp : has_pot env = true
  · refine ⟨by simp [buildAttempts, hy, hp], by simp [buildAttempts, hy, hp],
      ?_, ?_⟩
    · intro habs; exact absurd ⟨hy, hp⟩ habs
    · intro _ _; simp [buildAttempts, hy, hp]
  · refine ⟨by simp [buildAttempts, hy, hp], by simp [buildAttempts, hy, hp],
      ?_, ?_⟩
    · intro _; simp [buildAttempts, hy, hp]
    · intro _ hpot; exact absurd hpot hp
  · refine ⟨by simp [buildAttempts, hy, hp], by simp [buildAttempts, hy, hp],
      ?_, ?_⟩
    · intro _; simp [buildAttempts, hy, hp]
    · intro hyt _; exact absurd hyt hy
  · refine ⟨by simp [buildAttempts, hy, hp], by simp [buildAttempts, hy, hp],
      ?_, ?_⟩
    · intro _; simp [buildAttempts, hy, hp]
    · intro hyt _; exact absurd hyt hy

/-- Witness for C10: a YouTube URL with a configured POT provider yields the
two-attempt list. -/
theorem C10_attempts_witness :
    buildAttempts ⟨"https://pot.example", "cookies.txt", false⟩
        ⟨"https", "youtube.com"⟩ =
      [ydl_opts_base ⟨"https://pot.example", "cookies.txt", false⟩ true false,
       ydl_opts_base ⟨"https://pot.example", "cookies.txt", false⟩ true true] :=
  (C10_attempts _ _).2.2.2 (by decide) (by decide)

end SVD
